import Mathlib

/-
Verification of the sovrin walleted-agent message protocol
(`sovrin/agent/agent.py`, class `WalletedAgent`).

The Python code is shallowly embedded: message bodies are association
lists from string keys to a `Value` type mirroring the Python values
that appear on the wire (None, strings, numbers, lists, dicts);
side effects (transport sends, ledger submissions, observer
notifications, wallet persistence) are recorded as an explicit event
trace; a raised `NotImplementedError` is an `Outcome`.  External
collaborators (crypto primitives, the transport's remote table) are a
parameter record `Env`, matching the spec's treatment of them as
consumed primitives.
-/

namespace Sovrin

/-- Python values as they appear in protocol messages: `vnone` is
Python `None`, `vmap` a dict (association list in insertion order). -/
inductive Value where
  | vnone : Value
  | str : String → Value
  | num : Nat → Value
  | list : List Value → Value
  | vmap : List (String × Value) → Value
deriving Repr

mutual

def Value.decEq : (a b : Value) → Decidable (a = b)
  | .vnone, .vnone => isTrue rfl
  | .vnone, .str _ => isFalse nofun
  | .vnone, .num _ => isFalse nofun
  | .vnone, .list _ => isFalse nofun
  | .vnone, .vmap _ => isFalse nofun
  | .str _, .vnone => isFalse nofun
  | .str a, .str b =>
    if h : a = b then isTrue (by rw [h]) else isFalse (by intro he; injection he; contradiction)
  | .str _, .num _ => isFalse nofun
  | .str _, .list _ => isFalse nofun
  | .str _, .vmap _ => isFalse nofun
  | .num _, .vnone => isFalse nofun
  | .num _, .str _ => isFalse nofun
  | .num a, .num b =>
    if h : a = b then isTrue (by rw [h]) else isFalse (by intro he; injection he; contradiction)
  | .num _, .list _ => isFalse nofun
  | .num _, .vmap _ => isFalse nofun
  | .list _, .vnone => isFalse nofun
  | .list _, .str _ => isFalse nofun
  | .list _, .num _ => isFalse nofun
  | .list as, .list bs =>
    match Value.decEqList as bs with
    | isTrue h => isTrue (by rw [h])
    | isFalse h => isFalse (by intro he; injection he; contradiction)
  | .list _, .vmap _ => isFalse nofun
  | .vmap _, .vnone => isFalse nofun
  | .vmap _, .str _ => isFalse nofun
  | .vmap _, .num _ => isFalse nofun
  | .vmap _, .list _ => isFalse nofun
  | .vmap as, .vmap bs =>
    match Value.decEqPairs as bs with
    | isTrue h => isTrue (by rw [h])
    | isFalse h => isFalse (by intro he; injection he; contradiction)

def Value.decEqList : (as bs : List Value) → Decidable (as = bs)
  | [], [] => isTrue rfl
  | [], _ :: _ => isFalse nofun
  | _ :: _, [] => isFalse nofun
  | a :: as, b :: bs =>
    match Value.decEq a b with
    | isFalse h => isFalse (by intro he; injection he; contradiction)
    | isTrue h1 =>
      match Value.decEqList as bs with
      | isFalse h => isFalse (by intro he; injection he; contradiction)
      | isTrue h2 => isTrue (by rw [h1, h2])

def Value.decEqPairs : (as bs : List (String × Value)) → Decidable (as = bs)
  | [], [] => isTrue rfl
  | [], _ :: _ => isFalse nofun
  | _ :: _, [] => isFalse nofun
  | (k1, v1) :: as, (k2, v2) :: bs =>
    if hk : k1 = k2 then
      match Value.decEq v1 v2 with
      | isFalse h => isFalse (by intro he; injection he with h1 h2; injection h1; contradiction)
      | isTrue h1 =>
        match Value.decEqPairs as bs with
        | isFalse h => isFalse (by intro he; injection he; contradiction)
        | isTrue h2 => isTrue (by rw [hk, h1, h2])
    else isFalse (by intro he; injection he with h1 h2; injection h1; contradiction)

end

instance : DecidableEq Value := Value.decEq

/-- A Python message body: a dict in insertion order. -/
abbrev Body := List (String × Value)

/- Field-name constants.  `TYPE`, `DATA`, `IDENTIFIER`, `NONCE`, `NAME`,
`VERSION`, `TARGET_NYM`, `TXN_TYPE`, `NYM` come from `plenum.common.txn`,
and `SIG` is `f.SIG.nm` from `plenum.common.types` (`f.IDENTIFIER.nm`
coincides with `IDENTIFIER`); the message-type constants come from
`sovrin.agent.msg_types`.  None of those modules are part of this
repository's core file; the strings are modelled from the spec's wire
table (fields `type`, `identifier`, `sig`, `nonce`, `claimName`,
`availableClaimsList`, `claims`). -/
def TYPE : String := "type"
def DATA : String := "data"
def IDENTIFIER : String := "identifier"
def SIG : String := "signature"
def NONCE : String := "nonce"
def NAME : String := "name"
def VERSION : String := "version"
def TARGET_NYM : String := "dest"
def TXN_TYPE : String := "type"
def NYM : String := "NYM"
def AVAIL_CLAIM_LIST : String := "AVAIL_CLAIM_LIST"
def CLAIMS : String := "CLAIMS"
def REQUEST_CLAIMS : String := "REQUEST_CLAIMS"
def ACCEPT_INVITE : String := "ACCEPT_INVITE"
def CLAIM_NAME_FIELD : String := "claimName"
def CLAIMS_LIST_FIELD : String := "availableClaimsList"
def CLAIMS_FIELD : String := "claims"
def REQ_MSG : String := "REQ_MSG"
def ERROR : String := "ERROR"

/-- Modelled from the spec: the link-status sentinel
`t.LINK_STATUS_ACCEPTED` of `sovrin.client.wallet.link_invitation`
(status enum PENDING/ACCEPTED; the module is not in the core file). -/
def LINK_STATUS_ACCEPTED : String := "ACCEPTED"

/-- Modelled from the spec: the sentinel `t.TARGET_VER_KEY_SAME_AS_ID`
meaning the target verkey is derived from the identifier. -/
def TARGET_VER_KEY_SAME_AS_ID : String := "SAME_AS_ID"

/-- Python `body.get(k)`: the first binding of `k`, else `None`. -/
def pyGet (b : Body) (k : String) : Value :=
  ((b.find? (fun p => p.1 == k)).map Prod.snd).getD .vnone

/-- Python `body[k] = v` on a dict: replace in place, else append. -/
def setKey (b : Body) (k : String) (v : Value) : Body :=
  if b.any (fun p => p.1 == k) then b.map (fun p => if p.1 == k then (k, v) else p)
  else b ++ [(k, v)]

/-- The dict comprehension of `_isVerified`: all bindings except `k`,
order preserved. -/
def removeKey (b : Body) (k : String) : Body :=
  b.filter (fun p => !(p.1 == k))

/-- Python truthiness of a value (`if cl.get('definition', None):`). -/
def truthy : Value → Bool
  | .vnone => false
  | .str s => !(s == "")
  | .num n => !(n == 0)
  | .list vs => !vs.isEmpty
  | .vmap m => !m.isEmpty

/-- Iterating a Python value as a list (`for cl in body[...]`). -/
def asList : Value → List Value
  | .list vs => vs
  | _ => []

/-- Reading a Python value as a dict (`cl[NAME]` on a list entry). -/
def asMap : Value → Body
  | .vmap m => m
  | _ => []

/-- String content of a value, for formatting into notifications. -/
def valueAsStr : Value → String
  | .str s => s
  | _ => ""

/-- `ClaimDefKey = (name, version, claimDefSeqNo)`
(`sovrin.client.wallet.claim`, fields read straight off the message). -/
structure ClaimDefKey where
  name : Value
  version : Value
  claimDefSeqNo : Value
deriving DecidableEq, Repr

/-- `AvailableClaimData(claimDefKey)`: a reference to an issuable claim. -/
structure AvailableClaimData where
  claimDefKey : ClaimDefKey
deriving DecidableEq, Repr

/-- `ClaimDef(claimDefKey, definition)`: a stored claim definition. -/
structure ClaimDef where
  claimDefKey : ClaimDefKey
  definition : Value
deriving DecidableEq, Repr

/-- `ReceivedClaim(claimDefKey, issuerKeys, values)` with the
`dateOfIssue` stamped by the handler. -/
structure ReceivedClaim where
  claimDefKey : ClaimDefKey
  issuerKeys : Body
  values : Value
  dateOfIssue : Option Nat
deriving DecidableEq, Repr

/-- Modelled from the spec: `Link` of
`sovrin.client.wallet.link_invitation` (not in the core file): a trust
relationship keyed by `nonce` and by target identifier, with local and
remote identity handles, a status flag, a target verkey marker and the
claim sequences. -/
structure Link where
  name : String
  nonce : String
  target : String
  localIdentifier : String
  remoteIdentifier : Value
  remoteEndPoint : Option String
  linkStatus : String
  targetVerkey : String
  availableClaims : List AvailableClaimData
  receivedClaims : List ReceivedClaim
deriving DecidableEq, Repr

/-- Modelled from the spec: the wallet's link and claim stores
(`sovrin.client.wallet.wallet`, consumed through `defaultId`,
`getLinkByNonce`, `getLinkInvitationByTarget`, `addLinkInvitation`,
`addClaimDef`). -/
structure Wallet where
  defaultId : String
  links : List Link
  claimDefs : List ClaimDef
deriving DecidableEq, Repr

/-- Modelled from the spec: `wallet.getLinkByNonce` — exact-match lookup
of a link by the nonce extracted from the message. -/
def Wallet.getLinkByNonce (w : Wallet) (n : Value) : Option Link :=
  w.links.find? (fun l => Value.str l.nonce == n)

/-- Modelled from the spec: `wallet.getLinkInvitationByTarget` —
lookup of a link by target identifier (cryptonym form). -/
def Wallet.getLinkInvitationByTarget (w : Wallet) (t : String) : Option Link :=
  w.links.find? (fun l => l.target == t)

/-- Writing a link object back into the store under its nonce.  In the
Python source the store holds the very object the handlers mutate, so
both an in-place field assignment on a looked-up link and
`addLinkInvitation` come down to this update. -/
def Wallet.storeLink (w : Wallet) (l : Link) : Wallet :=
  if w.links.any (fun x => x.nonce == l.nonce) then
    { w with links := w.links.map (fun x => if x.nonce == l.nonce then l else x) }
  else { w with links := w.links ++ [l] }

/-- Modelled from the spec: `wallet.addLinkInvitation` persists the link. -/
def Wallet.addLinkInvitation (w : Wallet) (l : Link) : Wallet :=
  w.storeLink l

/-- Modelled from the spec: `wallet.addClaimDef` — the Claim Store is
idempotent for identical definitions, otherwise append. -/
def Wallet.addClaimDef (w : Wallet) (cd : ClaimDef) : Wallet :=
  if w.claimDefs.contains cd then w else { w with claimDefs := w.claimDefs ++ [cd] }

/-- A ledger request as produced by `wallet.signOp` and consumed by
`client.submitReqs`. -/
structure SignedReq where
  op : Body
  identifier : String
  signature : Value
deriving DecidableEq, Repr

/-- The external collaborators, as the spec scopes them out: crypto
primitives (`verifySig`, `signMsg`, the signature part of `signOp`),
identifier encodings (`isHex`, `cryptonymToHex`, `getCryptonym`), the
transport's remote table (`getRemote`) and the clock (`now`). -/
structure Env where
  verifySig : Value → Value → Body → Bool
  signMsg : Body → String → Value
  signOpSig : Body → String → Value
  isHex : Value → Bool
  cryptonymToHex : Value → Value
  getCryptonym : Value → String
  getRemote : String → Option String
  now : Nat

/-- The agent's own state: the wallet plus the claim catalogs that the
abstract methods `getAvailableClaimList` and `getClaimList` are to
supply (collaborator data; both raise in this core and are overridden
by concrete agents). -/
structure AgentState where
  wallet : Wallet
  availableClaimList : List Value
  claimList : List Body
deriving DecidableEq, Repr

/-- Observable side effects of a handler, in order: a transport send, a
ledger submission, an observer notification, a persisted link. -/
inductive Event where
  | sent : Body → String → Event
  | submitted : SignedReq → Event
  | notified : String → Event
  | addedLinkInvitation : Link → Event
deriving DecidableEq, Repr

/-- `Outcome.notImplementedError` records a raised `NotImplementedError`. -/
inductive Outcome where
  | ok : Outcome
  | notImplementedError : Outcome
deriving DecidableEq, Repr

structure HandlerResult where
  state : AgentState
  events : List Event
  outcome : Outcome
deriving DecidableEq, Repr

/-- `WalletedAgent.getErrorResponse`: the ERROR reply body. -/
def getErrorResponse (reqBody : Body) (errorMsg : String) : Body :=
  [(TYPE, .str ERROR), (DATA, .str errorMsg), (REQ_MSG, .vmap reqBody)]

/-- `Agent.sendMessage`: transmit when the transport can resolve the
destination, otherwise log a fault and drop (no event). -/
def sendMessage (env : Env) (msg : Body) (destName : String) : List Event :=
  match env.getRemote destName with
  | some _ => [.sent msg destName]
  | none => []

/-- `WalletedAgent.signAndSendToCaller`: overwrite the identifier field
with the wallet's default identity, sign with the given identifier,
attach the signature, send. -/
def signAndSendToCaller (env : Env) (st : AgentState) (resp : Body)
    (identifier : String) (frm : String) : List Event :=
  let resp1 := setKey resp IDENTIFIER (.str st.wallet.defaultId)
  let signature := env.signMsg resp1 identifier
  let resp2 := setKey resp1 SIG signature
  sendMessage env resp2 frm

/-- `WalletedAgent.logAndSendErrorResp` (the log line is an external
logging concern and is not recorded). -/
def logAndSendErrorResp (env : Env) (st : AgentState) (dest : String)
    (reqBody : Body) (respMsg : String) : List Event :=
  signAndSendToCaller env st (getErrorResponse reqBody respMsg) st.wallet.defaultId dest

/-- `WalletedAgent.verifyAndGetLink`: verify the body's signature with
the declared identifier as key, look the link up by nonce; on failure
send the matching signed ERROR reply and yield `none`; on success
record the remote identifier and endpoint on the stored link and yield
it. -/
def verifyAndGetLink (env : Env) (st : AgentState) (body : Body)
    (frm : String) (ha : String) : Option Link × AgentState × List Event :=
  let key := pyGet body IDENTIFIER
  let signature := pyGet body SIG
  let verified := env.verifySig key signature body
  let nonce := pyGet body NONCE
  let matchingLink := st.wallet.getLinkByNonce nonce
  if !verified then
    (none, st, logAndSendErrorResp env st frm body "Signature Rejected")
  else
    match matchingLink with
    | none => (none, st, logAndSendErrorResp env st frm body "No Such Link found")
    | some l =>
      let l2 := { l with remoteIdentifier := pyGet body IDENTIFIER,
                         remoteEndPoint := some ha }
      (some l2, { st with wallet := st.wallet.storeLink l2 }, [])

/-- `WalletedAgent.getCommonMsg`. -/
def getCommonMsg (type : String) : Body :=
  [(TYPE, .str type)]

/-- `WalletedAgent.createAvailClaimListMsg`. -/
def createAvailClaimListMsg (claimLists : Value) : Body :=
  setKey (getCommonMsg AVAIL_CLAIM_LIST) CLAIMS_LIST_FIELD claimLists

/-- `WalletedAgent.createClaimsMsg`. -/
def createClaimsMsg (claims : Value) : Body :=
  setKey (getCommonMsg CLAIMS) CLAIMS_FIELD claims

/-- `WalletedAgent._isVerified`: verify over the message with the
signature binding removed, the key being the identifier itself when
already hex, else its hex transform; notify on rejection. -/
def _isVerified (env : Env) (body : Body) : Bool × List Event :=
  let signature := pyGet body SIG
  let identifier := pyGet body IDENTIFIER
  let msgWithoutSig := removeKey body SIG
  let key := if env.isHex identifier then identifier else env.cryptonymToHex identifier
  let isVerified := env.verifySig key signature msgWithoutSig
  (isVerified, if isVerified then [] else [.notified "Signature rejected"])

/-- `WalletedAgent._sendToSovrin`: sign the operation with the default
identity (`wallet.signOp`) and submit it (`client.submitReqs`). -/
def _sendToSovrin (env : Env) (st : AgentState) (op : Body) : List Event :=
  [.submitted { op := op, identifier := st.wallet.defaultId,
                signature := env.signOpSig op st.wallet.defaultId }]

/-- `WalletedAgent._acceptInvite`: on link resolution, submit the NYM
operation for the declared identifier and reply with the full available
claim list, signed with the link's local identifier; on failed
resolution do nothing further (the raise there is commented out in the
source). -/
def _acceptInvite (env : Env) (st : AgentState) (body : Body)
    (frm : String) (ha : String) : HandlerResult :=
  match verifyAndGetLink env st body frm ha with
  | (some link, st1, ev1) =>
    let identifier := pyGet body IDENTIFIER
    let op := [(TARGET_NYM, identifier), (TXN_TYPE, .str NYM)]
    let ev2 := _sendToSovrin env st1 op
    let resp := createAvailClaimListMsg (.list st1.availableClaimList)
    let ev3 := signAndSendToCaller env st1 resp link.localIdentifier frm
    ⟨st1, ev1 ++ ev2 ++ ev3, .ok⟩
  | (none, st1, ev1) => ⟨st1, ev1, .ok⟩

/-- `WalletedAgent._reqClaim`: on link resolution, filter the claim
catalog by the requested name and reply with a signed CLAIMS message;
on failed resolution the source raises `NotImplementedError`. -/
def _reqClaim (env : Env) (st : AgentState) (body : Body)
    (frm : String) (ha : String) : HandlerResult :=
  match verifyAndGetLink env st body frm ha with
  | (some link, st1, ev1) =>
    let claimName := pyGet body CLAIM_NAME_FIELD
    let claimsToSend := st1.claimList.filter (fun cl => pyGet cl NAME == claimName)
    let resp := createClaimsMsg (.list (claimsToSend.map Value.vmap))
    ⟨st1, ev1 ++ signAndSendToCaller env st1 resp link.localIdentifier frm, .ok⟩
  | (none, st1, ev1) => ⟨st1, ev1, .notImplementedError⟩

/-- The claims-list loop of `_handleAcceptInviteResponse`: build an
`AvailableClaimData` for each entry, store a `ClaimDef` when the entry
carries a truthy inline definition, raise `NotImplementedError` at the
first entry without one. -/
def availClaimsLoop (w : Wallet) :
    List Value → List AvailableClaimData → Wallet × List AvailableClaimData × Outcome
  | [], acc => (w, acc, .ok)
  | cl :: rest, acc =>
    let clm := asMap cl
    let cdk : ClaimDefKey :=
      ⟨pyGet clm NAME, pyGet clm VERSION, pyGet clm "claimDefSeqNo"⟩
    let acc2 := acc ++ [⟨cdk⟩]
    if truthy (pyGet clm "definition") then
      availClaimsLoop (w.addClaimDef ⟨cdk, pyGet clm "definition"⟩) rest acc2
    else (w, acc2, .notImplementedError)

/-- `_syncLinkPostAvailableClaimsRcvd` via
`_checkIfLinkIdentifierWrittenToSovrin`: only the "Synchronizing..."
notification survives in the source (the request and callback are
commented out). -/
def _syncLinkPostAvailableClaimsRcvd : List Event :=
  [.notified "Synchronizing..."]

/-- `WalletedAgent._handleAcceptInviteResponse`. -/
def _handleAcceptInviteResponse (env : Env) (st : AgentState) (body : Body)
    (frm : String) (ha : String) : HandlerResult :=
  let (isVerified, ev0) := _isVerified env body
  if isVerified then
    let identifier := pyGet body IDENTIFIER
    match st.wallet.getLinkInvitationByTarget (env.getCryptonym identifier) with
    | some li =>
      let ev1 := [Event.notified ("Response from " ++ li.name ++ ":"),
                  .notified "    Signature accepted.",
                  .notified "    Trust established.",
                  .notified "    Identifier created in Sovrin."]
      match availClaimsLoop st.wallet (asList (pyGet body CLAIMS_LIST_FIELD)) [] with
      | (w2, _, .notImplementedError) =>
        ⟨{ st with wallet := w2 }, ev0 ++ ev1, .notImplementedError⟩
      | (w2, availableClaims, .ok) =>
        let li2 := { li with linkStatus := LINK_STATUS_ACCEPTED,
                             targetVerkey := TARGET_VER_KEY_SAME_AS_ID,
                             availableClaims := li.availableClaims ++ availableClaims }
        let w3 := w2.addLinkInvitation li2
        let ev2 := [Event.addedLinkInvitation li2]
        let ev3 :=
          if availableClaims.length > 0 then
            [Event.notified ("    Available claims: " ++
              String.intercalate "," (availableClaims.map
                (fun c => valueAsStr c.claimDefKey.name)))] ++
            _syncLinkPostAvailableClaimsRcvd
          else []
        ⟨{ st with wallet := w3 }, ev0 ++ ev1 ++ ev2 ++ ev3, .ok⟩
    | none => ⟨st, ev0 ++ [.notified "No matching link found"], .ok⟩
  else ⟨st, ev0, .ok⟩

/-- The claims loop of `_handleReqClaimResponse`: notify per claim,
look the link up by the sender's cryptonym, append a `ReceivedClaim`
stamped with the current time and persist when a link matches. -/
def reqClaimLoop (env : Env) (w : Wallet) (identifier : Value) :
    List Value → Wallet × List Event
  | [] => (w, [])
  | claim :: rest =>
    let clm := asMap claim
    let ev1 := [Event.notified ("Received " ++ valueAsStr (pyGet clm NAME) ++ ".")]
    match w.getLinkInvitationByTarget (env.getCryptonym identifier) with
    | some li =>
      let rc : ReceivedClaim :=
        { claimDefKey := ⟨pyGet clm NAME, pyGet clm VERSION, pyGet clm "claimDefSeqNo"⟩,
          issuerKeys := [], values := pyGet clm "values", dateOfIssue := some env.now }
      let li2 := { li with receivedClaims := li.receivedClaims ++ [rc] }
      let w2 := w.addLinkInvitation li2
      let (w3, evs) := reqClaimLoop env w2 identifier rest
      (w3, ev1 ++ [Event.addedLinkInvitation li2] ++ evs)
    | none =>
      let (w3, evs) := reqClaimLoop env w identifier rest
      (w3, ev1 ++ evs)

/-- `WalletedAgent._handleReqClaimResponse`.  The final notification
mirrors the source's `for`/`else`: the loop has no `break`, so the
`else` suite runs whenever the loop completes. -/
def _handleReqClaimResponse (env : Env) (st : AgentState) (body : Body)
    (frm : String) (ha : String) : HandlerResult :=
  let (isVerified, ev0) := _isVerified env body
  if isVerified then
    let identifier := pyGet body IDENTIFIER
    let (w2, evs) := reqClaimLoop env st.wallet identifier (asList (pyGet body CLAIMS_FIELD))
    ⟨{ st with wallet := w2 },
     ev0 ++ [.notified "Signature accepted."] ++ evs ++ [.notified "No matching link found"],
     .ok⟩
  else ⟨st, ev0, .ok⟩

/-- `WalletedAgent._handleError`: notify with the embedded error text
and offending message (formatting of the two values elided to their
string content). -/
def _handleError (st : AgentState) (body : Body) : HandlerResult :=
  ⟨st, [.notified ("Error (" ++ valueAsStr (pyGet body DATA) ++
        ") occurred while processing this msg")], .ok⟩

/-- The `ClaimDef` the claims-list loop stores for an entry carrying an
inline definition. -/
def toClaimDef (c : Value) : ClaimDef :=
  ⟨⟨pyGet (asMap c) NAME, pyGet (asMap c) VERSION, pyGet (asMap c) "claimDefSeqNo"⟩,
   pyGet (asMap c) "definition"⟩

/-- The event trace consists of exactly one transport send to `frm`:
a signed ERROR reply carrying the given data string, echoing the
offending request body, with the sender identifier overwritten to the
default identity and the signature computed with the default identity
over the reply without its signature field. -/
def SentSignedError (env : Env) (st : AgentState) (frm : String)
    (reqBody : Body) (errMsg : String) (evs : List Event) : Prop :=
  ∃ em, evs = [Event.sent em frm] ∧
    pyGet em TYPE = .str ERROR ∧
    pyGet em DATA = .str errMsg ∧
    pyGet em REQ_MSG = .vmap reqBody ∧
    pyGet em IDENTIFIER = .str st.wallet.defaultId ∧
    pyGet em SIG = env.signMsg (removeKey em SIG) st.wallet.defaultId

/-- The in-place update `verifyAndGetLink` performs on the matched link. -/
def updLink (body : Body) (ha : String) (l : Link) : Link :=
  { l with remoteIdentifier := pyGet body IDENTIFIER, remoteEndPoint := some ha }

/-- A concrete collaborator record for witnesses: a signature verifies
iff it is the string "good". -/
def envW : Env := {
  verifySig := fun _ s _ => s == Value.str "good",
  signMsg := fun b i => Value.str ("sig:" ++ i ++ ":" ++ toString b.length),
  signOpSig := fun _ i => Value.str ("opsig:" ++ i),
  isHex := fun v => v == Value.str "beef",
  cryptonymToHex := fun v => Value.str ("hex:" ++ valueAsStr v),
  getCryptonym := fun v => valueAsStr v,
  getRemote := fun _ => some "uid1",
  now := 42 }

def linkW : Link := {
  name := "L", nonce := "n1", target := "remoteId",
  localIdentifier := "loc1", remoteIdentifier := .vnone, remoteEndPoint := none,
  linkStatus := "PENDING", targetVerkey := "", availableClaims := [],
  receivedClaims := [] }

def stW : AgentState := {
  wallet := { defaultId := "did", links := [linkW], claimDefs := [] },
  availableClaimList := [.str "c1", .str "c2"],
  claimList := [[(NAME, .str "claimA"), (VERSION, .str "1")]] }

def bodyAIW : Body := [(TYPE, .str ACCEPT_INVITE), (IDENTIFIER, .str "remoteId"),
  (NONCE, .str "n1"), (SIG, .str "good")]

def bodyBadW : Body := [(TYPE, .str ACCEPT_INVITE), (IDENTIFIER, .str "remoteId"),
  (NONCE, .str "n1"), (SIG, .str "bad")]

def bodyNoLinkW : Body := [(TYPE, .str ACCEPT_INVITE), (IDENTIFIER, .str "remoteId"),
  (NONCE, .str "nX"), (SIG, .str "good")]

def bodyBadNoLinkW : Body := [(TYPE, .str ACCEPT_INVITE), (IDENTIFIER, .str "remoteId"),
  (NONCE, .str "nX"), (SIG, .str "bad")]

def bodyClaimsW : Body := [(TYPE, .str CLAIMS), (IDENTIFIER, .str "remoteId"),
  (SIG, .str "good"),
  (CLAIMS_FIELD, .list [.vmap [(NAME, .str "claimA"), (VERSION, .str "1"),
    ("claimDefSeqNo", .num 5), ("values", .vmap [("a", .str "1")])]])]

def bodyClaimsBadW : Body := [(TYPE, .str CLAIMS), (IDENTIFIER, .str "remoteId"),
  (SIG, .str "bad"),
  (CLAIMS_FIELD, .list [.vmap [(NAME, .str "claimA"), (VERSION, .str "1"),
    ("claimDefSeqNo", .num 5), ("values", .vmap [("a", .str "1")])]])]

def bodyClaimsStrW : Body := [(TYPE, .str CLAIMS), (IDENTIFIER, .str "stranger"),
  (SIG, .str "good"),
  (CLAIMS_FIELD, .list [.vmap [(NAME, .str "claimA"), (VERSION, .str "1"),
    ("claimDefSeqNo", .num 5), ("values", .vmap [("a", .str "1")])]])]

def bodyRCW : Body := [(TYPE, .str REQUEST_CLAIMS), (IDENTIFIER, .str "remoteId"),
  (NONCE, .str "n1"), (SIG, .str "good"), (CLAIM_NAME_FIELD, .str "nosuch")]

def bodyRCBadW : Body := [(TYPE, .str REQUEST_CLAIMS), (IDENTIFIER, .str "remoteId"),
  (NONCE, .str "n1"), (SIG, .str "bad"), (CLAIM_NAME_FIELD, .str "claimA")]

def bodyACLW : Body := [(TYPE, .str AVAIL_CLAIM_LIST), (IDENTIFIER, .str "remoteId"),
  (SIG, .str "good"),
  (CLAIMS_LIST_FIELD, .list [
    .vmap [(NAME, .str "c1"), (VERSION, .str "1"), ("claimDefSeqNo", .num 1),
           ("definition", .vmap [("attr", .str "x")])],
    .vmap [(NAME, .str "c2"), (VERSION, .str "1"), ("claimDefSeqNo", .num 2)]])]

theorem find?_removeKey_ne (b : Body) (k k' : String) (h : k' ≠ k) :
    (removeKey b k).find? (fun p => p.1 == k') = b.find? (fun p => p.1 == k') := by
  induction b with
  | nil => rfl
  | cons p rest ih =>
    rw [removeKey, List.filter_cons]
    by_cases hp : p.1 = k
    · rw [if_neg (by simp [hp])]
      rw [List.find?_cons_of_neg _ (by simp only [beq_iff_eq, hp]; exact fun he => h he.symm)]
      exact ih
    · rw [if_pos (by simpa using hp)]
      by_cases hq : p.1 = k'
      · rw [List.find?_cons_of_pos _ (by simpa using hq),
            List.find?_cons_of_pos _ (by simpa using hq)]
      · rw [List.find?_cons_of_neg _ (by simpa using hq),
            List.find?_cons_of_neg _ (by simpa using hq)]
        exact ih

theorem pyGet_removeKey_ne (b : Body) (k k' : String) (h : k' ≠ k) :
    pyGet (removeKey b k) k' = pyGet b k' := by
  unfold pyGet
  rw [find?_removeKey_ne b k k' h]

theorem removeKey_no_key (b : Body) (k : String) :
    (removeKey b k).find? (fun p => p.1 == k) = none := by
  rw [List.find?_eq_none]
  intro x hx
  unfold removeKey at hx
  have hfx : (!(x.1 == k)) = true := (List.mem_filter.mp hx).2
  simpa using hfx

theorem removeKey_id (b : Body) (k : String) (h : ∀ p ∈ b, p.1 ≠ k) :
    removeKey b k = b := by
  unfold removeKey
  rw [List.filter_eq_self]
  intro p hp
  simpa using h p hp

theorem setKey_keys (b : Body) (k k' : String) (v : Value)
    (h : ∀ p ∈ b, p.1 ≠ k') (hk : k ≠ k') :
    ∀ p ∈ setKey b k v, p.1 ≠ k' := by
  intro p hp
  unfold setKey at hp
  split at hp
  · obtain ⟨q, hq, hqe⟩ := List.mem_map.mp hp
    by_cases hc : q.1 = k
    · rw [if_pos (by simpa using hc)] at hqe
      rw [← hqe]; exact hk
    · rw [if_neg (by simpa using hc)] at hqe
      rw [← hqe]; exact h q hq
  · rcases List.mem_append.mp hp with h1 | h1
    · exact h p h1
    · have hpe : p = (k, v) := by simpa using h1
      rw [hpe]; exact hk

theorem setKey_append_of_absent (b : Body) (k : String) (v : Value)
    (h : ∀ p ∈ b, p.1 ≠ k) : setKey b k v = b ++ [(k, v)] := by
  unfold setKey
  rw [if_neg]
  intro hc
  obtain ⟨p, hp, hpe⟩ := List.any_eq_true.mp hc
  exact h p hp (by simpa using hpe)

theorem find?_none_of_keys (b : Body) (k : String) (h : ∀ p ∈ b, p.1 ≠ k) :
    b.find? (fun p => p.1 == k) = none := by
  rw [List.find?_eq_none]
  intro x hx hc
  exact h x hx (by simpa using hc)

theorem pyGet_append (b b2 : Body) (k : String) :
    pyGet (b ++ b2) k =
      match b.find? (fun p => p.1 == k) with
      | some q => q.2
      | none => pyGet b2 k := by
  unfold pyGet
  rw [List.find?_append]
  cases hf : b.find? (fun p => p.1 == k) <;> simp

theorem pyGet_mapReplace (b : Body) (k : String) (v : Value)
    (hany : b.any (fun p => p.1 == k) = true) :
    pyGet (b.map (fun p => if p.1 == k then (k, v) else p)) k = v := by
  induction b with
  | nil => simp at hany
  | cons q rest ih =>
    by_cases hq : q.1 = k
    · rw [List.map_cons, if_pos (show (q.1 == k) = true by simpa using hq)]
      unfold pyGet
      rw [List.find?_cons_of_pos _ (by simp)]
      rfl
    · have hqf : (q.1 == k) = false := by simpa using hq
      rw [List.map_cons, if_neg (by simp [hqf])]
      have hrest : rest.any (fun p => p.1 == k) = true := by
        rcases List.any_eq_true.mp hany with ⟨p, hp, hpe⟩
        rcases List.mem_cons.mp hp with he | hm
        · rw [he, hqf] at hpe; cases hpe
        · exact List.any_eq_true.mpr ⟨p, hm, hpe⟩
      unfold pyGet
      rw [List.find?_cons_of_neg _ (by simp [hqf])]
      exact ih hrest

theorem pyGet_setKey_self (b : Body) (k : String) (v : Value) :
    pyGet (setKey b k v) k = v := by
  unfold setKey
  split
  · exact pyGet_mapReplace b k v (by assumption)
  · rename_i hany
    have hf : b.find? (fun p => p.1 == k) = none := by
      rw [List.find?_eq_none]
      intro x hx hc
      exact hany (List.any_eq_true.mpr ⟨x, hx, hc⟩)
    rw [pyGet_append, hf]
    unfold pyGet
    rw [List.find?_cons_of_pos _ (by simp)]
    rfl

theorem storeLink_defaultId (w : Wallet) (l : Link) :
    (w.storeLink l).defaultId = w.defaultId := by
  unfold Wallet.storeLink; split <;> rfl

theorem storeLink_claimDefs (w : Wallet) (l : Link) :
    (w.storeLink l).claimDefs = w.claimDefs := by
  unfold Wallet.storeLink; split <;> rfl

theorem addClaimDef_links (w : Wallet) (cd : ClaimDef) :
    (w.addClaimDef cd).links = w.links := by
  unfold Wallet.addClaimDef; split <;> rfl

theorem addClaimDef_mem_self (w : Wallet) (cd : ClaimDef) :
    cd ∈ (w.addClaimDef cd).claimDefs := by
  unfold Wallet.addClaimDef
  split
  · rename_i h
    simpa using h
  · exact List.mem_append_right _ (by simp)

theorem addClaimDef_mem_mono (w : Wallet) (cd cd' : ClaimDef) (h : cd ∈ w.claimDefs) :
    cd ∈ (w.addClaimDef cd').claimDefs := by
  unfold Wallet.addClaimDef
  split
  · exact h
  · exact List.mem_append_left _ h

theorem logAndSendErrorResp_spec (env : Env) (st : AgentState) (frm : String)
    (reqBody : Body) (errMsg : String) (u : String) (hr : env.getRemote frm = some u) :
    SentSignedError env st frm reqBody errMsg
      (logAndSendErrorResp env st frm reqBody errMsg) := by
  have he : logAndSendErrorResp env st frm reqBody errMsg =
      [Event.sent (getErrorResponse reqBody errMsg ++
        [(IDENTIFIER, Value.str st.wallet.defaultId)] ++
        [(SIG, env.signMsg (getErrorResponse reqBody errMsg ++
          [(IDENTIFIER, Value.str st.wallet.defaultId)]) st.wallet.defaultId)]) frm] := by
    unfold logAndSendErrorResp signAndSendToCaller sendMessage
    rw [hr]
    rfl
  exact ⟨_, he, rfl, rfl, rfl, rfl, rfl⟩

theorem verifyAndGetLink_badsig (env : Env) (st : AgentState) (body : Body)
    (frm ha : String)
    (hv : env.verifySig (pyGet body IDENTIFIER) (pyGet body SIG) body = false) :
    verifyAndGetLink env st body frm ha =
      (none, st, logAndSendErrorResp env st frm body "Signature Rejected") := by
  simp [verifyAndGetLink, hv]

theorem verifyAndGetLink_nolink (env : Env) (st : AgentState) (body : Body)
    (frm ha : String)
    (hv : env.verifySig (pyGet body IDENTIFIER) (pyGet body SIG) body = true)
    (hl : st.wallet.getLinkByNonce (pyGet body NONCE) = none) :
    verifyAndGetLink env st body frm ha =
      (none, st, logAndSendErrorResp env st frm body "No Such Link found") := by
  simp [verifyAndGetLink, hv, hl]

theorem verifyAndGetLink_success (env : Env) (st : AgentState) (body : Body)
    (frm ha : String) (l : Link)
    (hv : env.verifySig (pyGet body IDENTIFIER) (pyGet body SIG) body = true)
    (hl : st.wallet.getLinkByNonce (pyGet body NONCE) = some l) :
    verifyAndGetLink env st body frm ha =
      (some (updLink body ha l),
       { st with wallet := st.wallet.storeLink (updLink body ha l) },
       []) := by
  simp [verifyAndGetLink, updLink, hv, hl]

theorem isVerified_events_of_true (env : Env) (body : Body)
    (h : (_isVerified env body).1 = true) : (_isVerified env body).2 = [] := by
  simp only [_isVerified] at h ⊢
  simp [h]

theorem isVerified_events_of_false (env : Env) (body : Body)
    (h : (_isVerified env body).1 = false) :
    (_isVerified env body).2 = [.notified "Signature rejected"] := by
  simp only [_isVerified] at h ⊢
  simp [h]

theorem keys_append_id (resp : Body) (st : AgentState)
    (hsig : ∀ p ∈ resp, p.1 ≠ SIG) :
    ∀ p ∈ resp ++ [(IDENTIFIER, Value.str st.wallet.defaultId)], p.1 ≠ SIG := by
  intro p hp
  rcases List.mem_append.mp hp with hq | hq
  · exact hsig p hq
  · have hpe : p = (IDENTIFIER, Value.str st.wallet.defaultId) := by simpa using hq
    rw [hpe]
    show IDENTIFIER ≠ SIG
    decide

theorem signAndSendToCaller_clean (env : Env) (st : AgentState) (resp : Body)
    (identifier frm u : String) (hr : env.getRemote frm = some u)
    (hid : ∀ p ∈ resp, p.1 ≠ IDENTIFIER) (hsig : ∀ p ∈ resp, p.1 ≠ SIG) :
    signAndSendToCaller env st resp identifier frm =
      [Event.sent (resp ++ [(IDENTIFIER, .str st.wallet.defaultId)] ++
        [(SIG, env.signMsg (resp ++ [(IDENTIFIER, .str st.wallet.defaultId)])
          identifier)]) frm] := by
  have h1 : setKey resp IDENTIFIER (Value.str st.wallet.defaultId) =
      resp ++ [(IDENTIFIER, Value.str st.wallet.defaultId)] :=
    setKey_append_of_absent resp IDENTIFIER _ hid
  simp only [signAndSendToCaller, sendMessage, h1]
  rw [setKey_append_of_absent _ SIG _ (keys_append_id resp st hsig), hr]

end Sovrin

namespace Sovrin

theorem availClaimsLoop_raises (pre : List Value) (bad : Value) (rest : List Value)
    (w : Wallet) (acc : List AvailableClaimData)
    (hpre : ∀ c ∈ pre, truthy (pyGet (asMap c) "definition") = true)
    (hbad : truthy (pyGet (asMap bad) "definition") = false) :
    ∃ acc2, availClaimsLoop w (pre ++ bad :: rest) acc =
      (pre.foldl (fun w c => w.addClaimDef (toClaimDef c)) w, acc2,
       .notImplementedError) := by
  induction pre generalizing w acc with
  | nil =>
    refine ⟨acc ++ [⟨⟨pyGet (asMap bad) NAME, pyGet (asMap bad) VERSION,
      pyGet (asMap bad) "claimDefSeqNo"⟩⟩], ?_⟩
    simp [availClaimsLoop, hbad]
  | cons c pre ih =>
    have hc : truthy (pyGet (asMap c) "definition") = true :=
      hpre c (List.mem_cons_self _ _)
    obtain ⟨acc2, hacc⟩ := ih (w.addClaimDef (toClaimDef c))
      (acc ++ [⟨⟨pyGet (asMap c) NAME, pyGet (asMap c) VERSION,
        pyGet (asMap c) "claimDefSeqNo"⟩⟩])
      (fun x hx => hpre x (List.mem_cons_of_mem _ hx))
    refine ⟨acc2, ?_⟩
    rw [List.cons_append]
    simp only [availClaimsLoop, hc, if_true, List.foldl_cons]
    exact hacc

theorem foldl_addClaimDef_links (l : List Value) (w : Wallet) :
    (l.foldl (fun w c => w.addClaimDef (toClaimDef c)) w).links = w.links := by
  induction l generalizing w with
  | nil => rfl
  | cons c l ih => rw [List.foldl_cons, ih, addClaimDef_links]

theorem foldl_addClaimDef_mem_mono (l : List Value) (w : Wallet) (cd : ClaimDef)
    (h : cd ∈ w.claimDefs) :
    cd ∈ (l.foldl (fun w c => w.addClaimDef (toClaimDef c)) w).claimDefs := by
  induction l generalizing w with
  | nil => exact h
  | cons c l ih =>
    rw [List.foldl_cons]
    exact ih _ (addClaimDef_mem_mono _ _ _ h)

theorem foldl_addClaimDef_mem (l : List Value) (w : Wallet) :
    ∀ c ∈ l, toClaimDef c ∈ (l.foldl (fun w c => w.addClaimDef (toClaimDef c)) w).claimDefs := by
  induction l generalizing w with
  | nil => intro c hc; simp at hc
  | cons c l ih =>
    intro x hx
    rw [List.foldl_cons]
    rcases List.mem_cons.mp hx with he | hm
    · rw [he]
      exact foldl_addClaimDef_mem_mono l _ _ (addClaimDef_mem_self _ _)
    · exact ih _ x hm

end Sovrin

namespace Sovrin

/-- C1: for every inbound envelope, `verifyAndGetLink` returns the link
found by exact nonce lookup with its `remoteIdentifier` set to the
message's identifier field and its `remoteEndPoint` set to the sender's
address (the update also landing in the stored wallet); on failed
signature verification it sends a signed ERROR reply with data
"Signature Rejected" and returns none; on successful verification with
no nonce match it sends a signed ERROR reply with data
"No Such Link found" and returns none. -/
theorem C1_verifyAndGetLink (env : Env) (st : AgentState) (body : Body)
    (frm ha u : String) (hr : env.getRemote frm = some u) :
    (env.verifySig (pyGet body IDENTIFIER) (pyGet body SIG) body = false →
      (verifyAndGetLink env st body frm ha).1 = none ∧
      SentSignedError env st frm body "Signature Rejected"
        (verifyAndGetLink env st body frm ha).2.2) ∧
    (env.verifySig (pyGet body IDENTIFIER) (pyGet body SIG) body = true →
      st.wallet.getLinkByNonce (pyGet body NONCE) = none →
      (verifyAndGetLink env st body frm ha).1 = none ∧
      SentSignedError env st frm body "No Such Link found"
        (verifyAndGetLink env st body frm ha).2.2) ∧
    (∀ l, env.verifySig (pyGet body IDENTIFIER) (pyGet body SIG) body = true →
      st.wallet.getLinkByNonce (pyGet body NONCE) = some l →
      (verifyAndGetLink env st body frm ha).1 = some (updLink body ha l) ∧
      (updLink body ha l).remoteIdentifier = pyGet body IDENTIFIER ∧
      (updLink body ha l).remoteEndPoint = some ha ∧
      (updLink body ha l).nonce = l.nonce ∧
      (verifyAndGetLink env st body frm ha).2.1.wallet =
        st.wallet.storeLink (updLink body ha l)) := by
  refine ⟨fun hv => ?_, fun hv hl => ?_, fun l hv hl => ?_⟩
  · rw [verifyAndGetLink_badsig env st body frm ha hv]
    exact ⟨rfl, logAndSendErrorResp_spec env st frm body _ u hr⟩
  · rw [verifyAndGetLink_nolink env st body frm ha hv hl]
    exact ⟨rfl, logAndSendErrorResp_spec env st frm body _ u hr⟩
  · rw [verifyAndGetLink_success env st body frm ha l hv hl]
    exact ⟨rfl, rfl, rfl, rfl, rfl⟩

theorem C1_verifyAndGetLink_witness :
    (envW.verifySig (pyGet bodyBadW IDENTIFIER) (pyGet bodyBadW SIG) bodyBadW = false ∧
      ((verifyAndGetLink envW stW bodyBadW "B" "ha1").1 = none ∧
       SentSignedError envW stW "B" bodyBadW "Signature Rejected"
         (verifyAndGetLink envW stW bodyBadW "B" "ha1").2.2)) ∧
    (envW.verifySig (pyGet bodyNoLinkW IDENTIFIER) (pyGet bodyNoLinkW SIG) bodyNoLinkW = true ∧
      stW.wallet.getLinkByNonce (pyGet bodyNoLinkW NONCE) = none ∧
      ((verifyAndGetLink envW stW bodyNoLinkW "B" "ha1").1 = none ∧
       SentSignedError envW stW "B" bodyNoLinkW "No Such Link found"
         (verifyAndGetLink envW stW bodyNoLinkW "B" "ha1").2.2)) ∧
    (envW.verifySig (pyGet bodyAIW IDENTIFIER) (pyGet bodyAIW SIG) bodyAIW = true ∧
      stW.wallet.getLinkByNonce (pyGet bodyAIW NONCE) = some linkW ∧
      ((verifyAndGetLink envW stW bodyAIW "B" "ha1").1 = some (updLink bodyAIW "ha1" linkW) ∧
       (updLink bodyAIW "ha1" linkW).remoteIdentifier = pyGet bodyAIW IDENTIFIER ∧
       (updLink bodyAIW "ha1" linkW).remoteEndPoint = some "ha1" ∧
       (updLink bodyAIW "ha1" linkW).nonce = linkW.nonce ∧
       (verifyAndGetLink envW stW bodyAIW "B" "ha1").2.1.wallet =
         stW.wallet.storeLink (updLink bodyAIW "ha1" linkW))) :=
  ⟨⟨by decide, (C1_verifyAndGetLink envW stW bodyBadW "B" "ha1" "uid1" rfl).1 (by decide)⟩,
   ⟨by decide, by decide,
    (C1_verifyAndGetLink envW stW bodyNoLinkW "B" "ha1" "uid1" rfl).2.1 (by decide) (by decide)⟩,
   ⟨by decide, by decide,
    (C1_verifyAndGetLink envW stW bodyAIW "B" "ha1" "uid1" rfl).2.2 linkW (by decide) (by decide)⟩⟩

/-- C9: on a failed signature verification, `verifyAndGetLink` sends
exactly one ERROR reply — "Signature Rejected" — even when the nonce
also matches no stored link, and neither failure path (bad signature,
or verified but unknown nonce) changes the agent state, so no stored
link is mutated. -/
theorem C9_verifyAndGetLink_failure_paths (env : Env) (st : AgentState) (body : Body)
    (frm ha u : String) (hr : env.getRemote frm = some u) :
    (env.verifySig (pyGet body IDENTIFIER) (pyGet body SIG) body = false →
      SentSignedError env st frm body "Signature Rejected"
        (verifyAndGetLink env st body frm ha).2.2 ∧
      (verifyAndGetLink env st body frm ha).2.1 = st) ∧
    (env.verifySig (pyGet body IDENTIFIER) (pyGet body SIG) body = true →
      st.wallet.getLinkByNonce (pyGet body NONCE) = none →
      (verifyAndGetLink env st body frm ha).2.1 = st) := by
  refine ⟨fun hv => ?_, fun hv hl => ?_⟩
  · rw [verifyAndGetLink_badsig env st body frm ha hv]
    exact ⟨logAndSendErrorResp_spec env st frm body _ u hr, rfl⟩
  · rw [verifyAndGetLink_nolink env st body frm ha hv hl]

theorem C9_verifyAndGetLink_failure_paths_witness :
    (envW.verifySig (pyGet bodyBadNoLinkW IDENTIFIER) (pyGet bodyBadNoLinkW SIG)
        bodyBadNoLinkW = false ∧
      (SentSignedError envW stW "B" bodyBadNoLinkW "Signature Rejected"
        (verifyAndGetLink envW stW bodyBadNoLinkW "B" "ha1").2.2 ∧
       (verifyAndGetLink envW stW bodyBadNoLinkW "B" "ha1").2.1 = stW)) ∧
    (envW.verifySig (pyGet bodyNoLinkW IDENTIFIER) (pyGet bodyNoLinkW SIG)
        bodyNoLinkW = true ∧
      stW.wallet.getLinkByNonce (pyGet bodyNoLinkW NONCE) = none ∧
      (verifyAndGetLink envW stW bodyNoLinkW "B" "ha1").2.1 = stW) :=
  ⟨⟨by decide,
    (C9_verifyAndGetLink_failure_paths envW stW bodyBadNoLinkW "B" "ha1" "uid1" rfl).1
      (by decide)⟩,
   ⟨by decide, by decide,
    (C9_verifyAndGetLink_failure_paths envW stW bodyNoLinkW "B" "ha1" "uid1" rfl).2
      (by decide) (by decide)⟩⟩

end Sovrin

namespace Sovrin

/-- C7: `_isVerified` checks the signature over the message with its
signature binding removed and every other binding preserved, using the
declared identifier directly as key when it is already hex and
otherwise the cryptonym-to-hex transform; on failure it notifies
observers "Signature rejected" and returns false (total, no raise);
on success it emits nothing. -/
theorem C7_isVerified (env : Env) (body : Body) :
    ((_isVerified env body).1 =
      env.verifySig
        (if env.isHex (pyGet body IDENTIFIER) then pyGet body IDENTIFIER
         else env.cryptonymToHex (pyGet body IDENTIFIER))
        (pyGet body SIG) (removeKey body SIG)) ∧
    ((removeKey body SIG).find? (fun p => p.1 == SIG) = none) ∧
    (∀ k, k ≠ SIG → pyGet (removeKey body SIG) k = pyGet body k) ∧
    ((_isVerified env body).1 = false →
      (_isVerified env body).2 = [.notified "Signature rejected"]) ∧
    ((_isVerified env body).1 = true → (_isVerified env body).2 = []) := by
  refine ⟨by simp [_isVerified], removeKey_no_key body SIG,
    fun k hk => pyGet_removeKey_ne body SIG k hk,
    isVerified_events_of_false env body,
    isVerified_events_of_true env body⟩

theorem C7_isVerified_witness :
    ((removeKey bodyBadW SIG).find? (fun p => p.1 == SIG) = none) ∧
    pyGet (removeKey bodyBadW SIG) IDENTIFIER = pyGet bodyBadW IDENTIFIER ∧
    (_isVerified envW bodyBadW).1 = false ∧
    (_isVerified envW bodyBadW).2 = [.notified "Signature rejected"] ∧
    (_isVerified envW bodyAIW).1 = true ∧
    (_isVerified envW bodyAIW).2 = [] :=
  ⟨(C7_isVerified envW bodyBadW).2.1,
   (C7_isVerified envW bodyBadW).2.2.1 IDENTIFIER (by decide),
   by decide,
   (C7_isVerified envW bodyBadW).2.2.2.1 (by decide),
   by decide,
   (C7_isVerified envW bodyAIW).2.2.2.2 (by decide)⟩

/-- C4 counterexample: a verified CLAIMS message with a non-empty
claims list whose sender matches no stored link still triggers the
"No matching link found" notification — the source's `for`/`else` has
no `break`, so the `else` suite runs after every completed loop,
refuting "emitted if and only if the claims list is empty". -/
theorem C4_counterexample :
    (_isVerified envW bodyClaimsStrW).1 = true ∧
    asList (pyGet bodyClaimsStrW CLAIMS_FIELD) ≠ [] ∧
    stW.wallet.getLinkInvitationByTarget
      (envW.getCryptonym (pyGet bodyClaimsStrW IDENTIFIER)) = none ∧
    Event.notified "No matching link found" ∈
      (_handleReqClaimResponse envW stW bodyClaimsStrW "B" "ha1").events := by
  decide

/-- C4 (amended): in `_handleReqClaimResponse` the "No matching link
found" notification is emitted for every verified CLAIMS message —
the loop contains no `break`, so the `for`/`else` clause always runs,
whatever the claims list or the link store contain — and it is not
emitted when verification fails. -/
theorem C4_noMatchingLink_notification (env : Env) (st : AgentState) (body : Body)
    (frm ha : String) :
    ((_isVerified env body).1 = true →
      Event.notified "No matching link found" ∈
        (_handleReqClaimResponse env st body frm ha).events) ∧
    ((_isVerified env body).1 = false →
      Event.notified "No matching link found" ∉
        (_handleReqClaimResponse env st body frm ha).events) := by
  constructor
  · intro hv
    cases hp : _isVerified env body with
    | mk v ev =>
      rw [hp] at hv
      simp only at hv
      simp [_handleReqClaimResponse, hp, hv]
  · intro hv
    have hev := isVerified_events_of_false env body hv
    cases hp : _isVerified env body with
    | mk v ev =>
      rw [hp] at hv hev
      simp only at hv hev
      simp only [_handleReqClaimResponse, hp, hv, hev]
      intro hmem
      simp at hmem

theorem C4_noMatchingLink_notification_witness :
    ((_isVerified envW bodyClaimsW).1 = true ∧
      Event.notified "No matching link found" ∈
        (_handleReqClaimResponse envW stW bodyClaimsW "B" "ha1").events) ∧
    ((_isVerified envW bodyClaimsBadW).1 = false ∧
      Event.notified "No matching link found" ∉
        (_handleReqClaimResponse envW stW bodyClaimsBadW "B" "ha1").events) :=
  ⟨⟨by decide,
    (C4_noMatchingLink_notification envW stW bodyClaimsW "B" "ha1").1 (by decide)⟩,
   ⟨by decide,
    (C4_noMatchingLink_notification envW stW bodyClaimsBadW "B" "ha1").2 (by decide)⟩⟩

end Sovrin

namespace Sovrin

/-- C5 counterexample: on a REQUEST_CLAIMS whose signature verification
fails (so link resolution yields none), `_reqClaim` raises
`NotImplementedError` — the handler is fatal, refuting "it does not
raise". -/
theorem C5_counterexample :
    (verifyAndGetLink envW stW bodyRCBadW "B" "ha1").1 = none ∧
    (_reqClaim envW stW bodyRCBadW "B" "ha1").outcome = .notImplementedError := by
  decide

/-- C5 (amended): when link resolution fails, `_reqClaim` sends no
CLAIMS reply — its only events are those of the resolution step, a
single signed ERROR reply — but the failure is not recovered locally:
the handler raises `NotImplementedError`. -/
theorem C5_reqClaim_failure (env : Env) (st : AgentState) (body : Body)
    (frm ha u : String) (hr : env.getRemote frm = some u)
    (hl : (verifyAndGetLink env st body frm ha).1 = none) :
    (_reqClaim env st body frm ha).outcome = .notImplementedError ∧
    (_reqClaim env st body frm ha).events =
      (verifyAndGetLink env st body frm ha).2.2 ∧
    (∀ m d, Event.sent m d ∈ (_reqClaim env st body frm ha).events →
      pyGet m TYPE = .str ERROR) ∧
    (∃ errMsg, SentSignedError env st frm body errMsg
      (_reqClaim env st body frm ha).events) := by
  cases hv : env.verifySig (pyGet body IDENTIFIER) (pyGet body SIG) body with
  | false =>
    have hb := verifyAndGetLink_badsig env st body frm ha hv
    have hss := logAndSendErrorResp_spec env st frm body "Signature Rejected" u hr
    obtain ⟨em, hem, hT, hrest⟩ := hss
    refine ⟨by simp [_reqClaim, hb], by simp [_reqClaim, hb], ?_, "Signature Rejected",
      ⟨em, by simp [_reqClaim, hb, hem], hT, hrest⟩⟩
    intro m d hmem
    simp only [_reqClaim, hb] at hmem
    rw [hem] at hmem
    simp only [List.mem_singleton] at hmem
    cases hmem
    exact hT
  | true =>
    cases hlk : st.wallet.getLinkByNonce (pyGet body NONCE) with
    | some l =>
      rw [verifyAndGetLink_success env st body frm ha l hv hlk] at hl
      simp at hl
    | none =>
      have hb := verifyAndGetLink_nolink env st body frm ha hv hlk
      have hss := logAndSendErrorResp_spec env st frm body "No Such Link found" u hr
      obtain ⟨em, hem, hT, hrest⟩ := hss
      refine ⟨by simp [_reqClaim, hb], by simp [_reqClaim, hb], ?_, "No Such Link found",
        ⟨em, by simp [_reqClaim, hb, hem], hT, hrest⟩⟩
      intro m d hmem
      simp only [_reqClaim, hb] at hmem
      rw [hem] at hmem
      simp only [List.mem_singleton] at hmem
      cases hmem
      exact hT

theorem C5_reqClaim_failure_witness :
    envW.getRemote "B" = some "uid1" ∧
    (verifyAndGetLink envW stW bodyRCBadW "B" "ha1").1 = none ∧
    ((_reqClaim envW stW bodyRCBadW "B" "ha1").outcome = .notImplementedError ∧
     (_reqClaim envW stW bodyRCBadW "B" "ha1").events =
       (verifyAndGetLink envW stW bodyRCBadW "B" "ha1").2.2 ∧
     (∀ m d, Event.sent m d ∈ (_reqClaim envW stW bodyRCBadW "B" "ha1").events →
       pyGet m TYPE = .str ERROR) ∧
     (∃ errMsg, SentSignedError envW stW "B" bodyRCBadW errMsg
       (_reqClaim envW stW bodyRCBadW "B" "ha1").events)) :=
  ⟨rfl, by decide,
   C5_reqClaim_failure envW stW bodyRCBadW "B" "ha1" "uid1" rfl (by decide)⟩

end Sovrin

namespace Sovrin

/-- C8: on a verified REQUEST_CLAIMS whose link resolves but whose
requested claim name matches nothing in the catalog, `_reqClaim`
completes without raising and replies with a signed CLAIMS message
carrying an empty claims list — not an ERROR. -/
theorem C8_reqClaim_unknown_name (env : Env) (st : AgentState) (body : Body)
    (frm ha : String) (l : Link) (u : String) (hr : env.getRemote frm = some u)
    (hv : env.verifySig (pyGet body IDENTIFIER) (pyGet body SIG) body = true)
    (hl : st.wallet.getLinkByNonce (pyGet body NONCE) = some l)
    (hno : ∀ cl ∈ st.claimList,
      (pyGet cl NAME == pyGet body CLAIM_NAME_FIELD) = false) :
    (_reqClaim env st body frm ha).outcome = .ok ∧
    ∃ m, (_reqClaim env st body frm ha).events = [Event.sent m frm] ∧
      pyGet m TYPE = .str CLAIMS ∧
      pyGet m CLAIMS_FIELD = .list [] ∧
      pyGet m IDENTIFIER = .str st.wallet.defaultId ∧
      pyGet m SIG = env.signMsg (removeKey m SIG) l.localIdentifier ∧
      pyGet m TYPE ≠ .str ERROR := by
  have hs := verifyAndGetLink_success env st body frm ha l hv hl
  have hfil : ({ st with wallet := st.wallet.storeLink (updLink body ha l) } :
      AgentState).claimList.filter
      (fun cl => pyGet cl NAME == pyGet body CLAIM_NAME_FIELD) = [] :=
    List.filter_eq_nil_iff.mpr (fun cl hcl => by simp [hno cl hcl])
  have hkid : ∀ p ∈ createClaimsMsg (Value.list []), p.1 ≠ IDENTIFIER := by
    intro p hp
    have hp' : p ∈ ([(TYPE, Value.str CLAIMS), (CLAIMS_FIELD, Value.list [])] : Body) := hp
    rcases List.mem_cons.mp hp' with he | hp2
    · rw [he]; show TYPE ≠ IDENTIFIER; decide
    · rcases List.mem_cons.mp hp2 with he | hp3
      · rw [he]; show CLAIMS_FIELD ≠ IDENTIFIER; decide
      · simp at hp3
  have hksig : ∀ p ∈ createClaimsMsg (Value.list []), p.1 ≠ SIG := by
    intro p hp
    have hp' : p ∈ ([(TYPE, Value.str CLAIMS), (CLAIMS_FIELD, Value.list [])] : Body) := hp
    rcases List.mem_cons.mp hp' with he | hp2
    · rw [he]; show TYPE ≠ SIG; decide
    · rcases List.mem_cons.mp hp2 with he | hp3
      · rw [he]; show CLAIMS_FIELD ≠ SIG; decide
      · simp at hp3
  have hev := signAndSendToCaller_clean env
    { st with wallet := st.wallet.storeLink (updLink body ha l) }
    (createClaimsMsg (Value.list [])) (updLink body ha l).localIdentifier frm u hr
    hkid hksig
  have hdid : ({ st with wallet := st.wallet.storeLink (updLink body ha l) } :
      AgentState).wallet.defaultId = st.wallet.defaultId := storeLink_defaultId _ _
  rw [hdid] at hev
  have hlid : (updLink body ha l).localIdentifier = l.localIdentifier := rfl
  rw [hlid] at hev
  refine ⟨by simp [_reqClaim, hs], ?_⟩
  refine ⟨createClaimsMsg (Value.list []) ++
      [(IDENTIFIER, Value.str st.wallet.defaultId)] ++
      [(SIG, env.signMsg (createClaimsMsg (Value.list []) ++
        [(IDENTIFIER, Value.str st.wallet.defaultId)]) l.localIdentifier)],
    ?_, rfl, rfl, rfl, rfl,
    by show Value.str CLAIMS ≠ Value.str ERROR; decide⟩
  simp only [_reqClaim, hs, hfil, List.map_nil, List.nil_append]
  exact hev

theorem C8_reqClaim_unknown_name_witness :
    envW.getRemote "B" = some "uid1" ∧
    envW.verifySig (pyGet bodyRCW IDENTIFIER) (pyGet bodyRCW SIG) bodyRCW = true ∧
    stW.wallet.getLinkByNonce (pyGet bodyRCW NONCE) = some linkW ∧
    ((_reqClaim envW stW bodyRCW "B" "ha1").outcome = .ok ∧
     ∃ m, (_reqClaim envW stW bodyRCW "B" "ha1").events = [Event.sent m "B"] ∧
       pyGet m TYPE = .str CLAIMS ∧
       pyGet m CLAIMS_FIELD = .list [] ∧
       pyGet m IDENTIFIER = .str stW.wallet.defaultId ∧
       pyGet m SIG = envW.signMsg (removeKey m SIG) linkW.localIdentifier ∧
       pyGet m TYPE ≠ .str ERROR) :=
  ⟨rfl, by decide, by decide,
   C8_reqClaim_unknown_name envW stW bodyRCW "B" "ha1" linkW "uid1" rfl
     (by decide) (by decide) (by decide)⟩

end Sovrin

namespace Sovrin

/-- C2: an ACCEPT_INVITE failing signature verification yields exactly
one signed ERROR reply "Signature Rejected" with no ledger submission
and no AVAIL_CLAIM_LIST reply; a verified ACCEPT_INVITE whose nonce
matches a stored link submits a signed NYM operation targeting the
message's identifier and replies with a signed AVAIL_CLAIM_LIST
carrying the agent's full available-claim catalog. -/
theorem C2_acceptInvite (env : Env) (st : AgentState) (body : Body)
    (frm ha u : String) (hr : env.getRemote frm = some u) :
    (env.verifySig (pyGet body IDENTIFIER) (pyGet body SIG) body = false →
      SentSignedError env st frm body "Signature Rejected"
        (_acceptInvite env st body frm ha).events ∧
      (∀ r, Event.submitted r ∉ (_acceptInvite env st body frm ha).events) ∧
      (∀ m d, Event.sent m d ∈ (_acceptInvite env st body frm ha).events →
        pyGet m TYPE ≠ .str AVAIL_CLAIM_LIST)) ∧
    (∀ l, env.verifySig (pyGet body IDENTIFIER) (pyGet body SIG) body = true →
      st.wallet.getLinkByNonce (pyGet body NONCE) = some l →
      ∃ m, (_acceptInvite env st body frm ha).events =
        [Event.submitted ⟨[(TARGET_NYM, pyGet body IDENTIFIER), (TXN_TYPE, .str NYM)],
          st.wallet.defaultId,
          env.signOpSig [(TARGET_NYM, pyGet body IDENTIFIER), (TXN_TYPE, .str NYM)]
            st.wallet.defaultId⟩,
         Event.sent m frm] ∧
        pyGet m TYPE = .str AVAIL_CLAIM_LIST ∧
        pyGet m CLAIMS_LIST_FIELD = .list st.availableClaimList ∧
        pyGet m IDENTIFIER = .str st.wallet.defaultId ∧
        pyGet m SIG = env.signMsg (removeKey m SIG) l.localIdentifier) := by
  constructor
  · intro hv
    have hb := verifyAndGetLink_badsig env st body frm ha hv
    obtain ⟨em, hem, hT, hD, hR, hI, hS⟩ :=
      logAndSendErrorResp_spec env st frm body "Signature Rejected" u hr
    have hevs : (_acceptInvite env st body frm ha).events = [Event.sent em frm] := by
      simp only [_acceptInvite, hb]
      exact hem
    refine ⟨⟨em, by rw [hevs], hT, hD, hR, hI, hS⟩, ?_, ?_⟩
    · intro r hmem
      rw [hevs] at hmem
      simp at hmem
    · intro m d hmem
      rw [hevs] at hmem
      simp only [List.mem_singleton] at hmem
      injection hmem with h1 h2
      subst h1
      rw [hT]
      decide
  · intro l hv hl
    have hs := verifyAndGetLink_success env st body frm ha l hv hl
    have hkid : ∀ p ∈ createAvailClaimListMsg (Value.list st.availableClaimList),
        p.1 ≠ IDENTIFIER := by
      intro p hp
      have hp' : p ∈ ([(TYPE, Value.str AVAIL_CLAIM_LIST),
          (CLAIMS_LIST_FIELD, Value.list st.availableClaimList)] : Body) := hp
      rcases List.mem_cons.mp hp' with he | hp2
      · rw [he]; show TYPE ≠ IDENTIFIER; decide
      · rcases List.mem_cons.mp hp2 with he | hp3
        · rw [he]; show CLAIMS_LIST_FIELD ≠ IDENTIFIER; decide
        · simp at hp3
    have hksig : ∀ p ∈ createAvailClaimListMsg (Value.list st.availableClaimList),
        p.1 ≠ SIG := by
      intro p hp
      have hp' : p ∈ ([(TYPE, Value.str AVAIL_CLAIM_LIST),
          (CLAIMS_LIST_FIELD, Value.list st.availableClaimList)] : Body) := hp
      rcases List.mem_cons.mp hp' with he | hp2
      · rw [he]; show TYPE ≠ SIG; decide
      · rcases List.mem_cons.mp hp2 with he | hp3
        · rw [he]; show CLAIMS_LIST_FIELD ≠ SIG; decide
        · simp at hp3
    have hev := signAndSendToCaller_clean env
      { st with wallet := st.wallet.storeLink (updLink body ha l) }
      (createAvailClaimListMsg (Value.list st.availableClaimList))
      (updLink body ha l).localIdentifier frm u hr hkid hksig
    have hdid : ({ st with wallet := st.wallet.storeLink (updLink body ha l) } :
        AgentState).wallet.defaultId = st.wallet.defaultId := storeLink_defaultId _ _
    rw [hdid] at hev
    rw [show (updLink body ha l).localIdentifier = l.localIdentifier from rfl] at hev
    refine ⟨createAvailClaimListMsg (Value.list st.availableClaimList) ++
        [(IDENTIFIER, Value.str st.wallet.defaultId)] ++
        [(SIG, env.signMsg (createAvailClaimListMsg (Value.list st.availableClaimList) ++
          [(IDENTIFIER, Value.str st.wallet.defaultId)]) l.localIdentifier)],
      ?_, rfl, rfl, rfl, rfl⟩
    simp only [_acceptInvite, hs, _sendToSovrin, hdid, List.nil_append]
    rw [show (updLink body ha l).localIdentifier = l.localIdentifier from rfl,
        storeLink_defaultId]
    rw [hev]
    rfl

theorem C2_acceptInvite_witness :
    envW.getRemote "B" = some "uid1" ∧
    (envW.verifySig (pyGet bodyBadW IDENTIFIER) (pyGet bodyBadW SIG) bodyBadW = false ∧
      (SentSignedError envW stW "B" bodyBadW "Signature Rejected"
        (_acceptInvite envW stW bodyBadW "B" "ha1").events ∧
       (∀ r, Event.submitted r ∉ (_acceptInvite envW stW bodyBadW "B" "ha1").events) ∧
       (∀ m d, Event.sent m d ∈ (_acceptInvite envW stW bodyBadW "B" "ha1").events →
         pyGet m TYPE ≠ .str AVAIL_CLAIM_LIST))) ∧
    (envW.verifySig (pyGet bodyAIW IDENTIFIER) (pyGet bodyAIW SIG) bodyAIW = true ∧
      stW.wallet.getLinkByNonce (pyGet bodyAIW NONCE) = some linkW ∧
      (∃ m, (_acceptInvite envW stW bodyAIW "B" "ha1").events =
        [Event.submitted ⟨[(TARGET_NYM, pyGet bodyAIW IDENTIFIER), (TXN_TYPE, .str NYM)],
          stW.wallet.defaultId,
          envW.signOpSig [(TARGET_NYM, pyGet bodyAIW IDENTIFIER), (TXN_TYPE, .str NYM)]
            stW.wallet.defaultId⟩,
         Event.sent m "B"] ∧
        pyGet m TYPE = .str AVAIL_CLAIM_LIST ∧
        pyGet m CLAIMS_LIST_FIELD = .list stW.availableClaimList ∧
        pyGet m IDENTIFIER = .str stW.wallet.defaultId ∧
        pyGet m SIG = envW.signMsg (removeKey m SIG) linkW.localIdentifier)) :=
  ⟨rfl,
   ⟨by decide, (C2_acceptInvite envW stW bodyBadW "B" "ha1" "uid1" rfl).1 (by decide)⟩,
   ⟨by decide, by decide,
    (C2_acceptInvite envW stW bodyAIW "B" "ha1" "uid1" rfl).2 linkW
      (by decide) (by decide)⟩⟩

end Sovrin

namespace Sovrin

theorem addClaimDef_new (w : Wallet) (cd : ClaimDef) (h : cd ∉ w.claimDefs) :
    (w.addClaimDef cd).claimDefs = w.claimDefs ++ [cd] := by
  unfold Wallet.addClaimDef
  rw [if_neg (by simpa using h)]

theorem handleAIR_raises_core (env : Env) (st : AgentState) (body : Body)
    (frm ha : String) (li : Link) (pre : List Value) (bad : Value) (rest : List Value)
    (hv : (_isVerified env body).1 = true)
    (hli : st.wallet.getLinkInvitationByTarget
      (env.getCryptonym (pyGet body IDENTIFIER)) = some li)
    (hcl : asList (pyGet body CLAIMS_LIST_FIELD) = pre ++ bad :: rest)
    (hpre : ∀ c ∈ pre, truthy (pyGet (asMap c) "definition") = true)
    (hbad : truthy (pyGet (asMap bad) "definition") = false) :
    _handleAcceptInviteResponse env st body frm ha =
      ⟨{ st with wallet := pre.foldl (fun w c => w.addClaimDef (toClaimDef c)) st.wallet },
       [.notified ("Response from " ++ li.name ++ ":"),
        .notified "    Signature accepted.",
        .notified "    Trust established.",
        .notified "    Identifier created in Sovrin."],
       .notImplementedError⟩ := by
  obtain ⟨acc2, hloop⟩ := availClaimsLoop_raises pre bad rest st.wallet [] hpre hbad
  cases hp : _isVerified env body with
  | mk v ev =>
    have hv' : v = true := by rw [hp] at hv; simpa using hv
    have hev0 : ev = [] := by
      have h2 := isVerified_events_of_true env body (by rw [hp]; simpa using hv')
      rw [hp] at h2
      simpa using h2
    subst hv'
    subst hev0
    simp only [_handleAcceptInviteResponse, hp, hli, hcl, hloop, if_true,
      List.nil_append]

/-- C10: when a verified AVAIL_CLAIM_LIST from a known target contains
an entry without an inline definition, the handler raises
`NotImplementedError` after storing a ClaimDef for each preceding entry
carrying a definition; the operation is not atomic — those ClaimDefs
remain in the wallet while the links (status, targetVerkey,
availableClaims) are untouched and no link is persisted. -/
theorem C10_handleAcceptInviteResponse_partial (env : Env) (st : AgentState)
    (body : Body) (frm ha : String) (li : Link) (pre : List Value) (bad : Value)
    (rest : List Value)
    (hv : (_isVerified env body).1 = true)
    (hli : st.wallet.getLinkInvitationByTarget
      (env.getCryptonym (pyGet body IDENTIFIER)) = some li)
    (hcl : asList (pyGet body CLAIMS_LIST_FIELD) = pre ++ bad :: rest)
    (hpre : ∀ c ∈ pre, truthy (pyGet (asMap c) "definition") = true)
    (hbad : truthy (pyGet (asMap bad) "definition") = false) :
    (_handleAcceptInviteResponse env st body frm ha).outcome = .notImplementedError ∧
    (∀ c ∈ pre, toClaimDef c ∈
      (_handleAcceptInviteResponse env st body frm ha).state.wallet.claimDefs) ∧
    (_handleAcceptInviteResponse env st body frm ha).state.wallet.links =
      st.wallet.links ∧
    (∀ l, Event.addedLinkInvitation l ∉
      (_handleAcceptInviteResponse env st body frm ha).events) := by
  rw [handleAIR_raises_core env st body frm ha li pre bad rest hv hli hcl hpre hbad]
  refine ⟨rfl, fun c hc => foldl_addClaimDef_mem pre st.wallet c hc,
    foldl_addClaimDef_links pre st.wallet, ?_⟩
  intro l hmem
  simp at hmem

theorem C10_handleAcceptInviteResponse_partial_witness :
    ((_isVerified envW bodyACLW).1 = true ∧
     stW.wallet.getLinkInvitationByTarget
       (envW.getCryptonym (pyGet bodyACLW IDENTIFIER)) = some linkW ∧
     asList (pyGet bodyACLW CLAIMS_LIST_FIELD) =
       [Value.vmap [(NAME, .str "c1"), (VERSION, .str "1"), ("claimDefSeqNo", .num 1),
          ("definition", .vmap [("attr", .str "x")])]] ++
       Value.vmap [(NAME, .str "c2"), (VERSION, .str "1"), ("claimDefSeqNo", .num 2)] :: [] ∧
     truthy (pyGet (asMap (Value.vmap [(NAME, .str "c1"), (VERSION, .str "1"),
       ("claimDefSeqNo", .num 1), ("definition", .vmap [("attr", .str "x")])]))
       "definition") = true ∧
     truthy (pyGet (asMap (Value.vmap [(NAME, .str "c2"), (VERSION, .str "1"),
       ("claimDefSeqNo", .num 2)])) "definition") = false) ∧
    ((_handleAcceptInviteResponse envW stW bodyACLW "B" "ha1").outcome =
       .notImplementedError ∧
     (∀ c ∈ [Value.vmap [(NAME, .str "c1"), (VERSION, .str "1"),
        ("claimDefSeqNo", .num 1), ("definition", .vmap [("attr", .str "x")])]],
       toClaimDef c ∈
         (_handleAcceptInviteResponse envW stW bodyACLW "B" "ha1").state.wallet.claimDefs) ∧
     (_handleAcceptInviteResponse envW stW bodyACLW "B" "ha1").state.wallet.links =
       stW.wallet.links ∧
     (∀ l, Event.addedLinkInvitation l ∉
       (_handleAcceptInviteResponse envW stW bodyACLW "B" "ha1").events)) :=
  ⟨⟨by decide, by decide, by decide, by decide, by decide⟩,
   C10_handleAcceptInviteResponse_partial envW stW bodyACLW "B" "ha1" linkW
     [Value.vmap [(NAME, .str "c1"), (VERSION, .str "1"), ("claimDefSeqNo", .num 1),
        ("definition", .vmap [("attr", .str "x")])]]
     (Value.vmap [(NAME, .str "c2"), (VERSION, .str "1"), ("claimDefSeqNo", .num 2)]) []
     (by decide) (by decide) (by decide) (by decide) (by decide)⟩

end Sovrin

namespace Sovrin

/-- C3 counterexample: a verified AVAIL_CLAIM_LIST from a known target
with two claim entries, the first carrying an inline definition and the
second not, makes the Claim Store gain exactly one ClaimDef but — as
stated — the rest of the claim fails: the handler raises
`NotImplementedError`, the stored link is unchanged (its
`availableClaims` does not gain two entries and its status never
becomes ACCEPTED), no link is persisted, and observers receive only
the four acknowledgement lines, never the claim names. -/
theorem C3_counterexample :
    (_isVerified envW bodyACLW).1 = true ∧
    stW.wallet.getLinkInvitationByTarget
      (envW.getCryptonym (pyGet bodyACLW IDENTIFIER)) = some linkW ∧
    (asList (pyGet bodyACLW CLAIMS_LIST_FIELD)).length = 2 ∧
    (_handleAcceptInviteResponse envW stW bodyACLW "B" "ha1").state.wallet.claimDefs.length = 1 ∧
    (_handleAcceptInviteResponse envW stW bodyACLW "B" "ha1").state.wallet.links =
      stW.wallet.links ∧
    ((_handleAcceptInviteResponse envW stW bodyACLW "B" "ha1").state.wallet.links.all
      (fun l => !(l.linkStatus == LINK_STATUS_ACCEPTED))) = true ∧
    ((_handleAcceptInviteResponse envW stW bodyACLW "B" "ha1").state.wallet.links.all
      (fun l => l.availableClaims.isEmpty)) = true ∧
    (_handleAcceptInviteResponse envW stW bodyACLW "B" "ha1").events =
      [.notified "Response from L:", .notified "    Signature accepted.",
       .notified "    Trust established.", .notified "    Identifier created in Sovrin."] ∧
    (_handleAcceptInviteResponse envW stW bodyACLW "B" "ha1").outcome =
      .notImplementedError := by
  decide

/-- C3 (amended): on a verified AVAIL_CLAIM_LIST from a known target
with two claim entries where the entry carrying an inline definition
precedes the one without, the Claim Store gains exactly that one new
ClaimDef, but the handler then raises `NotImplementedError`: the link
store is unchanged (no `availableClaims` update, no ACCEPTED
transition), the link is not persisted, and observers receive only the
four acknowledgement notifications — not the claim names. -/
theorem C3_availClaimList_mixed (env : Env) (st : AgentState) (body : Body)
    (frm ha : String) (li : Link) (c1 c2 : Value)
    (hv : (_isVerified env body).1 = true)
    (hli : st.wallet.getLinkInvitationByTarget
      (env.getCryptonym (pyGet body IDENTIFIER)) = some li)
    (hcl : asList (pyGet body CLAIMS_LIST_FIELD) = [c1, c2])
    (h1 : truthy (pyGet (asMap c1) "definition") = true)
    (h2 : truthy (pyGet (asMap c2) "definition") = false)
    (hnew : toClaimDef c1 ∉ st.wallet.claimDefs) :
    (_handleAcceptInviteResponse env st body frm ha).outcome = .notImplementedError ∧
    (_handleAcceptInviteResponse env st body frm ha).state.wallet.claimDefs =
      st.wallet.claimDefs ++ [toClaimDef c1] ∧
    (_handleAcceptInviteResponse env st body frm ha).state.wallet.links =
      st.wallet.links ∧
    (_handleAcceptInviteResponse env st body frm ha).events =
      [.notified ("Response from " ++ li.name ++ ":"),
       .notified "    Signature accepted.",
       .notified "    Trust established.",
       .notified "    Identifier created in Sovrin."] := by
  rw [handleAIR_raises_core env st body frm ha li [c1] c2 [] hv hli hcl
    (by intro c hc; rw [List.mem_singleton.mp hc]; exact h1) h2]
  exact ⟨rfl, addClaimDef_new st.wallet (toClaimDef c1) hnew,
    addClaimDef_links st.wallet (toClaimDef c1), rfl⟩

theorem C3_availClaimList_mixed_witness :
    ((_isVerified envW bodyACLW).1 = true ∧
     stW.wallet.getLinkInvitationByTarget
       (envW.getCryptonym (pyGet bodyACLW IDENTIFIER)) = some linkW ∧
     toClaimDef (Value.vmap [(NAME, .str "c1"), (VERSION, .str "1"),
       ("claimDefSeqNo", .num 1), ("definition", .vmap [("attr", .str "x")])]) ∉
       stW.wallet.claimDefs) ∧
    ((_handleAcceptInviteResponse envW stW bodyACLW "B" "ha1").outcome =
       .notImplementedError ∧
     (_handleAcceptInviteResponse envW stW bodyACLW "B" "ha1").state.wallet.claimDefs =
       stW.wallet.claimDefs ++ [toClaimDef (Value.vmap [(NAME, .str "c1"),
         (VERSION, .str "1"), ("claimDefSeqNo", .num 1),
         ("definition", .vmap [("attr", .str "x")])])] ∧
     (_handleAcceptInviteResponse envW stW bodyACLW "B" "ha1").state.wallet.links =
       stW.wallet.links ∧
     (_handleAcceptInviteResponse envW stW bodyACLW "B" "ha1").events =
       [.notified ("Response from " ++ linkW.name ++ ":"),
        .notified "    Signature accepted.",
        .notified "    Trust established.",
        .notified "    Identifier created in Sovrin."]) :=
  ⟨⟨by decide, by decide, by decide⟩,
   C3_availClaimList_mixed envW stW bodyACLW "B" "ha1" linkW
     (Value.vmap [(NAME, .str "c1"), (VERSION, .str "1"), ("claimDefSeqNo", .num 1),
        ("definition", .vmap [("attr", .str "x")])])
     (Value.vmap [(NAME, .str "c2"), (VERSION, .str "1"), ("claimDefSeqNo", .num 2)])
     (by decide) (by decide) (by decide) (by decide) (by decide) (by decide)⟩

end Sovrin

namespace Sovrin

/-- C6: for every outbound reply (none of the protocol's reply builders
ever places a signature binding in it, which the hypothesis records),
`signAndSendToCaller` overwrites the identifier field with the wallet's
default identity, computes the signature with the specified signing
identifier over the message as it stands before the signature field is
attached — so the signed content contains the overwritten identifier
field and no signature field — then attaches the signature and
transmits to the named destination. -/
theorem C6_signAndSendToCaller (env : Env) (st : AgentState) (resp : Body)
    (identifier frm u : String) (hr : env.getRemote frm = some u)
    (hsig : ∀ p ∈ resp, p.1 ≠ SIG) :
    ∃ m, signAndSendToCaller env st resp identifier frm = [Event.sent m frm] ∧
      pyGet m IDENTIFIER = .str st.wallet.defaultId ∧
      removeKey m SIG = setKey resp IDENTIFIER (.str st.wallet.defaultId) ∧
      pyGet m SIG = env.signMsg (removeKey m SIG) identifier ∧
      pyGet (removeKey m SIG) IDENTIFIER = .str st.wallet.defaultId ∧
      (removeKey m SIG).find? (fun p => p.1 == SIG) = none := by
  have hk : (IDENTIFIER : String) ≠ SIG := by decide
  have hkeys1 : ∀ p ∈ setKey resp IDENTIFIER (Value.str st.wallet.defaultId), p.1 ≠ SIG :=
    setKey_keys resp IDENTIFIER SIG _ hsig hk
  have hm : setKey (setKey resp IDENTIFIER (Value.str st.wallet.defaultId)) SIG
      (env.signMsg (setKey resp IDENTIFIER (Value.str st.wallet.defaultId)) identifier) =
      setKey resp IDENTIFIER (Value.str st.wallet.defaultId) ++
        [(SIG, env.signMsg (setKey resp IDENTIFIER (Value.str st.wallet.defaultId))
          identifier)] :=
    setKey_append_of_absent _ SIG _ hkeys1
  have hrem : removeKey (setKey (setKey resp IDENTIFIER (Value.str st.wallet.defaultId))
      SIG (env.signMsg (setKey resp IDENTIFIER (Value.str st.wallet.defaultId))
        identifier)) SIG =
      setKey resp IDENTIFIER (Value.str st.wallet.defaultId) := by
    rw [hm]
    unfold removeKey
    rw [List.filter_append]
    have h1 : (setKey resp IDENTIFIER (Value.str st.wallet.defaultId)).filter
        (fun p => !(p.1 == SIG)) =
        setKey resp IDENTIFIER (Value.str st.wallet.defaultId) :=
      removeKey_id _ SIG hkeys1
    rw [h1]
    simp
  refine ⟨setKey (setKey resp IDENTIFIER (Value.str st.wallet.defaultId)) SIG
      (env.signMsg (setKey resp IDENTIFIER (Value.str st.wallet.defaultId)) identifier),
    ?_, ?_, hrem, ?_, ?_, removeKey_no_key _ SIG⟩
  · unfold signAndSendToCaller sendMessage
    rw [hr]
  · have hpr := pyGet_removeKey_ne (setKey (setKey resp IDENTIFIER
      (Value.str st.wallet.defaultId)) SIG (env.signMsg (setKey resp IDENTIFIER
        (Value.str st.wallet.defaultId)) identifier)) SIG IDENTIFIER hk
    rw [hrem] at hpr
    rw [← hpr, pyGet_setKey_self]
  · rw [hrem, hm, pyGet_append, find?_none_of_keys _ SIG hkeys1]
    rfl
  · rw [hrem, pyGet_setKey_self]

theorem C6_signAndSendToCaller_witness :
    envW.getRemote "B" = some "uid1" ∧
    (∀ p ∈ ([(DATA, Value.str "hello")] : Body), p.1 ≠ SIG) ∧
    (∃ m, signAndSendToCaller envW stW [(DATA, Value.str "hello")] "loc1" "B" =
        [Event.sent m "B"] ∧
      pyGet m IDENTIFIER = .str stW.wallet.defaultId ∧
      removeKey m SIG = setKey [(DATA, Value.str "hello")] IDENTIFIER
        (.str stW.wallet.defaultId) ∧
      pyGet m SIG = envW.signMsg (removeKey m SIG) "loc1" ∧
      pyGet (removeKey m SIG) IDENTIFIER = .str stW.wallet.defaultId ∧
      (removeKey m SIG).find? (fun p => p.1 == SIG) = none) :=
  ⟨rfl, by decide,
   C6_signAndSendToCaller envW stW [(DATA, Value.str "hello")] "loc1" "B" "uid1"
     rfl (by decide)⟩

end Sovrin
